import Mathlib

/-!
Verification of the lifecycle / clock-offset / negotiation core of the
`rosbasesink` GStreamer element (`src/gst_bridge/src/rosbasesink.cpp`,
declarations in `src/gst_bridge/include/gst_bridge/gst_bridge.h`).

The C++ element is shallowly embedded: the sink instance becomes a record of
its fields (pointers become `Bool` / `Option` presence flags), each static
function of the source file becomes a Lean function on that record, and the
observable side effects (hook invocations, clock sampling, resource release,
logging) are recorded in an explicit event trace so that ordering and
"exactly once" properties can be stated.
-/

set_option autoImplicit false
set_option genSizeOfSpec false

namespace RosGstBridge

/-- The GStreamer element states relevant to the sink
(`GST_STATE_NULL`, `GST_STATE_READY`, `GST_STATE_PAUSED`, `GST_STATE_PLAYING`). -/
inductive GstState
  | null
  | ready
  | paused
  | playing

/-- The six state-change transitions of the four-state lattice, as delivered
to `rosbasesink_change_state` (`GstStateChange`). -/
inductive GstStateChange
  | null_to_ready
  | ready_to_paused
  | paused_to_playing
  | playing_to_paused
  | paused_to_ready
  | ready_to_null

/-- Return values of a state-change call (`GstStateChangeReturn`).
Only `failure` and `success` are produced by the embedded code. -/
inductive GstStateChangeReturn
  | failure
  | success
  | async
  | no_preroll
  deriving DecidableEq

/-- Flow return of the render path (`GstFlowReturn`); only `GST_FLOW_OK` is
produced by the base class itself, other values can come from subclass hooks. -/
inductive GstFlowReturn
  | ok
  | flow_error
  | eos

/-- Caps are modelled as their serialized description string; the base class
never inspects their contents. -/
abbrev GstCaps := String

/-- A buffer as seen by the render path: only its presentation timestamp
(`GST_BUFFER_PTS`, a `guint64`) is read by the base class. -/
structure GstBuffer where
  pts : Nat

/-- The `rclcpp::Context` owned by the sink: `shut_down` records whether
`shutdown()` has been called on it (the shared pointer itself is kept). -/
structure RosContext where
  shut_down : Bool

/-- The fields of the `RosBaseSink` instance struct that the source file
reads or writes.  Smart pointers (`node`, `clock`, `logger`) are modelled by
their non-null status; `ros_context` keeps its shutdown flag.
`ros_clock_offset` is a `GstClockTimeDiff` (`gint64`), modelled as `Int`. -/
structure RosBaseSink where
  node_name : String
  node_namespace : String
  ros_context : Option RosContext
  node : Bool
  logger : Bool
  clock : Bool
  ros_clock_offset : Int

/-- The subclass function-pointer table (`RosBaseSinkClass`).  The lifecycle
hooks `open`/`close` are recorded by presence only (their per-call results are
supplied by `Env`); the caps and render hooks are modelled, per the spec's
CapabilityNegotiator/BufferTranslator contracts, as pure functions (the
concrete subclasses live outside the covered source). -/
structure RosBaseSinkClass where
  has_open : Bool
  has_close : Bool
  set_caps : Option (RosBaseSink → GstCaps → Bool)
  get_caps : Option (RosBaseSink → GstCaps → GstCaps)
  render : Option (GstBuffer → Int → GstFlowReturn)

/-- Per-call environment: the results the subclass lifecycle hooks report on
this particular call, and the value `gst_bridge::sample_clock_offset` returns
if it is sampled during this call. -/
structure Env where
  open_hook_ok : Bool
  close_hook_ok : Bool
  sample_value : Int

/-- Observable events of the embedded code, in program order. -/
inductive Event
  | contextCreate
  | contextInit
  | nodeCreate
  | openHook (ok : Bool)
  | getLogger
  | getClock
  | clockReset
  | closeHook (ok : Bool)
  | nodeReset
  | contextShutdown
  | sampleClockOffset (value : Int)
  | parentChangeState
  | logError
  | logWarn
  | warnInvalidProperty

/-- Embeds `rosbasesink_init`: the instance right after construction.  GObject
zero-initializes the instance memory (null pointers, zero offset), then the
init function strdups the default name and namespace. -/
def rosbasesink_init : RosBaseSink :=
  { node_name := "gst_base_sink_node"
    node_namespace := ""
    ros_context := none
    node := false
    logger := false
    clock := false
    ros_clock_offset := 0 }

/-- The property ids the `set_property`/`get_property` switch handles
(`PROP_ROS_NAME`, `PROP_ROS_NAMESPACE`), plus the `default:` branch. -/
inductive PropertyId
  | ros_name
  | ros_namespace
  | other

/-- Embeds `rosbasesink_set_property`: a name/namespace set is refused with a logged
error while `sink->node` is non-null, otherwise the stored string is replaced;
an unknown property id is reported and changes nothing. -/
def rosbasesink_set_property (s : RosBaseSink) (p : PropertyId) (v : String) :
    RosBaseSink × List Event :=
  match p with
  | PropertyId.ros_name =>
      if s.node then (s, [Event.logError])
      else ({ s with node_name := v }, [])
  | PropertyId.ros_namespace =>
      if s.node then (s, [Event.logError])
      else ({ s with node_namespace := v }, [])
  | PropertyId.other => (s, [Event.warnInvalidProperty])

/-- Embeds `rosbasesink_open`: creates and inits the context, creates the node, lets
the subclass open hook run (its result becomes the call's result; nothing is
torn down when it fails), then caches logger and clock from the node.
The returned trace records the order of these steps. -/
def rosbasesink_open (klass : RosBaseSinkClass) (env : Env) (s : RosBaseSink) :
    RosBaseSink × Bool × List Event :=
  ({ s with
      ros_context := some { shut_down := false }
      node := true
      logger := true
      clock := true },
   (if klass.has_open then env.open_hook_ok else true),
   [Event.contextCreate, Event.contextInit, Event.nodeCreate] ++
     (if klass.has_open then [Event.openHook env.open_hook_ok] else []) ++
     [Event.getLogger, Event.getClock])

/-- Embeds `rosbasesink_close`: resets the cached clock, lets the subclass close hook
run (its result becomes the call's result but does not gate any step), resets
the node, then calls `shutdown()` on the context (the context pointer itself
is retained, merely shut down). -/
def rosbasesink_close (klass : RosBaseSinkClass) (env : Env) (s : RosBaseSink) :
    RosBaseSink × Bool × List Event :=
  ({ s with
      clock := false
      node := false
      ros_context := s.ros_context.map (fun c => { c with shut_down := true }) },
   (if klass.has_close then env.close_hook_ok else true),
   Event.clockReset ::
     ((if klass.has_close then [Event.closeHook env.close_hook_ok] else []) ++
       [Event.nodeReset, Event.contextShutdown]))

/-- Modelled from the spec: the chained-up `change_state` of the GStreamer
base class (`GST_ELEMENT_CLASS (rosbasesink_parent_class)->change_state`) is
library code outside this repository; per the spec, transitions delivered by
the pipeline are synchronous calls that complete, so it reports success. -/
def parent_change_state (_t : GstStateChange) : GstStateChangeReturn :=
  GstStateChangeReturn.success

/-- Embeds `rosbasesink_change_state`: before chaining up, `NULL_TO_READY` runs
`rosbasesink_open` (returning `GST_STATE_CHANGE_FAILURE` immediately when it
fails) and `PAUSED_TO_PLAYING` stores a fresh `sample_clock_offset` result;
after chaining up, `READY_TO_NULL` runs `rosbasesink_close`, whose result is
ignored. -/
def rosbasesink_change_state (klass : RosBaseSinkClass) (env : Env)
    (s : RosBaseSink) (t : GstStateChange) :
    RosBaseSink × GstStateChangeReturn × List Event :=
  match t with
  | GstStateChange.null_to_ready =>
      let o := rosbasesink_open klass env s
      if o.2.1 then (o.1, parent_change_state t, o.2.2 ++ [Event.parentChangeState])
      else (o.1, GstStateChangeReturn.failure, o.2.2)
  | GstStateChange.paused_to_playing =>
      ({ s with ros_clock_offset := env.sample_value },
       parent_change_state t,
       [Event.sampleClockOffset env.sample_value, Event.parentChangeState])
  | GstStateChange.ready_to_null =>
      let o := rosbasesink_close klass env s
      (o.1, parent_change_state t, Event.parentChangeState :: o.2.2)
  | _ => (s, parent_change_state t, [Event.parentChangeState])

/-- Source state of each transition in the four-state lattice. -/
def transition_source : GstStateChange → GstState
  | GstStateChange.null_to_ready => GstState.null
  | GstStateChange.ready_to_paused => GstState.ready
  | GstStateChange.paused_to_playing => GstState.paused
  | GstStateChange.playing_to_paused => GstState.playing
  | GstStateChange.paused_to_ready => GstState.paused
  | GstStateChange.ready_to_null => GstState.ready

/-- Target state of each transition in the four-state lattice. -/
def transition_target : GstStateChange → GstState
  | GstStateChange.null_to_ready => GstState.ready
  | GstStateChange.ready_to_paused => GstState.paused
  | GstStateChange.paused_to_playing => GstState.playing
  | GstStateChange.playing_to_paused => GstState.paused
  | GstStateChange.paused_to_ready => GstState.ready
  | GstStateChange.ready_to_null => GstState.null

/-- GStreamer commits the element to the transition's target state only when
the state-change call does not report failure. -/
def commit_state (st : GstState) (t : GstStateChange) (ret : GstStateChangeReturn) :
    GstState :=
  if ret = GstStateChangeReturn.failure then st else transition_target t

/-- The context exists and has not been shut down. -/
def context_live (s : RosBaseSink) : Bool :=
  match s.ros_context with
  | some c => !c.shut_down
  | none => false

/-- The ExternalConnection of the spec: the ROS node handle together with a
live (initialized, not shut down) context. -/
def connection_open (s : RosBaseSink) : Bool :=
  s.node && context_live s

/-- Two's-complement reinterpretation of a `gint64` value as the `guint64`
it converts to under C's usual arithmetic conversions. -/
def toUnsigned64 (i : Int) : Nat :=
  (i % (2 ^ 64 : Int)).toNat

/-- Reinterpretation of a `guint64` value as the `int64_t` it converts to
(two's complement wrap-around). -/
def toSigned64 (n : Nat) : Int :=
  if n % 2 ^ 64 < 2 ^ 63 then ((n % 2 ^ 64 : Nat) : Int)
  else ((n % 2 ^ 64 : Nat) : Int) - 2 ^ 64

/-- The nanosecond value handed to `rclcpp::Time` by the render path:
`GST_BUFFER_PTS (buf) + base_time + sink->ros_clock_offset` computed in
`guint64` arithmetic (the `gint64` summands convert to `guint64`, the sum
wraps modulo 2^64) and then converted to the `int64_t` constructor
parameter. -/
def msg_time_ns (pts : Nat) (base_time offset : Int) : Int :=
  toSigned64 ((pts + toUnsigned64 base_time + toUnsigned64 offset) % 2 ^ 64)

/-- What crashes the render path: `sink->clock->get_clock_type()` is called
while the `clock` shared pointer is null. -/
inductive RenderError
  | nullClockDeref

/-- Outcome of a render call that did not crash. -/
inductive RenderResult
  /-- The subclass render hook was invoked with this message timestamp and
  returned this flow value. -/
  | delegated (msg_time : Int) (flow : GstFlowReturn)
  /-- No render hook is set: the buffer is dropped and `GST_FLOW_OK` is
  returned. -/
  | dropped

/-- Embeds `rosbasesink_render`: fetches the element base time (supplied here by the
caller, as `gst_element_get_base_time` reads GStreamer-owned element state),
builds `msg_time` — dereferencing `sink->clock` unconditionally — then hands
buffer and timestamp to the subclass render hook if one is set; otherwise the
buffer is dropped, with a warning only when `sink->node` is non-null, and
`GST_FLOW_OK` is returned. -/
def rosbasesink_render (klass : RosBaseSinkClass) (s : RosBaseSink)
    (base_time : Int) (buf : GstBuffer) :
    Except RenderError (RenderResult × List Event) :=
  if s.clock = false then Except.error RenderError.nullClockDeref
  else
    let t := msg_time_ns buf.pts base_time s.ros_clock_offset
    match klass.render with
    | some f => Except.ok (RenderResult.delegated t (f buf t), [])
    | none =>
        if s.node then Except.ok (RenderResult.dropped, [Event.logWarn])
        else Except.ok (RenderResult.dropped, [])

/-- Embeds `rosbasesink_setcaps`: `result` starts `FALSE` and is only overwritten by
the subclass `set_caps` hook when one is registered. -/
def rosbasesink_setcaps (klass : RosBaseSinkClass) (s : RosBaseSink)
    (caps : GstCaps) : Bool :=
  match klass.set_caps with
  | some f => f s caps
  | none => false

/-- Embeds `rosbasesink_getcaps`: invokes the subclass `get_caps` hook when present
but discards its value, and returns the incoming `filter` unchanged; no field
of the sink is written. -/
def rosbasesink_getcaps (klass : RosBaseSinkClass) (s : RosBaseSink)
    (filter : GstCaps) : GstCaps × RosBaseSink :=
  match klass.get_caps with
  | some f =>
      let _hook_result := f s filter
      (filter, s)
  | none => (filter, s)

/-- Runs of the element: starting from any disconnected instance in the Null
state, follow lattice transitions whose state-change call does not report
failure (GStreamer commits the state only then), with property sets allowed
at any point.  Each step draws its own environment (hook results, clock
sample). -/
inductive Reachable (klass : RosBaseSinkClass) : GstState → RosBaseSink → Prop
  | init (s : RosBaseSink) (hn : s.node = false) (hc : s.ros_context = none) :
      Reachable klass GstState.null s
  | step (env : Env) (t : GstStateChange) (st : GstState) (s : RosBaseSink)
      (h : Reachable klass st s)
      (hsrc : transition_source t = st)
      (hret : (rosbasesink_change_state klass env s t).2.1 ≠
        GstStateChangeReturn.failure) :
      Reachable klass (transition_target t) (rosbasesink_change_state klass env s t).1
  | setprop (p : PropertyId) (v : String) (st : GstState) (s : RosBaseSink)
      (h : Reachable klass st s) :
      Reachable klass st (rosbasesink_set_property s p v).1

/-- Holds (as `true`) exactly on clock-offset sampling events. -/
def isSampleEvent : Event → Bool
  | Event.sampleClockOffset _ => true
  | _ => false

/-- Number of `sample_clock_offset` invocations recorded in a trace. -/
def sampleCount (evs : List Event) : Nat :=
  (evs.filter isSampleEvent).length

/-- Run a list of state-change calls, threading the sink and concatenating
the event traces. -/
def run_transitions (klass : RosBaseSinkClass) :
    RosBaseSink → List (Env × GstStateChange) → RosBaseSink × List Event
  | s, [] => (s, [])
  | s, (env, t) :: rest =>
      let o := rosbasesink_change_state klass env s t
      let r := run_transitions klass o.1 rest
      (r.1, o.2.2 ++ r.2)

/-- A subclass table with both lifecycle hooks and no caps/render hooks. -/
def klassFull : RosBaseSinkClass :=
  { has_open := true
    has_close := true
    set_caps := none
    get_caps := none
    render := none }

/-- An environment whose open hook reports failure. -/
def envFailOpen : Env :=
  { open_hook_ok := false, close_hook_ok := true, sample_value := 0 }

/-- An environment whose hooks succeed. -/
def envOk : Env :=
  { open_hook_ok := true, close_hook_ok := true, sample_value := 42 }

/-- The sink after a successful Null→Ready transition from a fresh instance. -/
def sinkReady : RosBaseSink :=
  (rosbasesink_change_state klassFull envOk rosbasesink_init
    GstStateChange.null_to_ready).1

end RosGstBridge

namespace RosGstBridge

/-- Auxiliary: a property set never changes the `node` pointer or the
context; only the stored identity strings can change. -/
theorem set_property_preserves_connection (s : RosBaseSink) (p : PropertyId)
    (v : String) :
    (rosbasesink_set_property s p v).1.node = s.node ∧
      (rosbasesink_set_property s p v).1.ros_context = s.ros_context := by
  cases p <;> simp only [rosbasesink_set_property] <;>
    first
      | (split <;> simp)
      | simp

/-- C10: when the concrete bridge class has not registered a `set_caps` hook,
`rosbasesink_setcaps` returns `FALSE` for every caps value, so the proposal
is rejected. -/
theorem setcaps_without_hook_rejects (klass : RosBaseSinkClass)
    (s : RosBaseSink) (caps : GstCaps) (h : klass.set_caps = none) :
    rosbasesink_setcaps klass s caps = false := by
  simp [rosbasesink_setcaps, h]

/-- Witness for C10 at a concrete class without a `set_caps` hook. -/
theorem setcaps_without_hook_rejects_witness :
    rosbasesink_setcaps klassFull rosbasesink_init "audio/x-raw" = false :=
  setcaps_without_hook_rejects klassFull rosbasesink_init "audio/x-raw" rfl

/-- C9: the get-caps query is deterministic and side-effect-free: it returns
the incoming filter unchanged, leaves every field of the sink unchanged, and
a repeated call with the same filter returns the same result. -/
theorem getcaps_deterministic_and_pure (klass : RosBaseSinkClass)
    (s : RosBaseSink) (filter : GstCaps) :
    (rosbasesink_getcaps klass s filter).1 = filter ∧
      (rosbasesink_getcaps klass s filter).2 = s ∧
      (rosbasesink_getcaps klass
          (rosbasesink_getcaps klass s filter).2 filter).1 =
        (rosbasesink_getcaps klass s filter).1 := by
  cases h : klass.get_caps <;> simp [rosbasesink_getcaps, h]

/-- C6: the Ready→Null state change ignores the close hook's result: the call
returns the chained-up success value whatever the hook reports (in particular
the same value as when the hook succeeds), and the node is released and the
context shut down unconditionally. -/
theorem close_best_effort (klass : RosBaseSinkClass) (env : Env)
    (s : RosBaseSink) :
    (rosbasesink_change_state klass env s GstStateChange.ready_to_null).2.1 =
        (rosbasesink_change_state klass { env with close_hook_ok := true } s
          GstStateChange.ready_to_null).2.1 ∧
      (rosbasesink_change_state klass env s GstStateChange.ready_to_null).2.1 =
        GstStateChangeReturn.success ∧
      (rosbasesink_change_state klass env s GstStateChange.ready_to_null).1.node =
        false ∧
      (rosbasesink_change_state klass env s
          GstStateChange.ready_to_null).1.ros_context =
        s.ros_context.map (fun c => { c with shut_down := true }) :=
  ⟨rfl, rfl, rfl, rfl⟩

/-- C7: while the node exists, setting the node-name or node-namespace
property only logs an error and leaves the sink (every field) unchanged;
while it does not exist, the set replaces exactly the stored string and
modifies nothing else. -/
theorem set_property_identity_guard (s : RosBaseSink) (v : String) :
    (s.node = true →
        rosbasesink_set_property s PropertyId.ros_name v = (s, [Event.logError]) ∧
          rosbasesink_set_property s PropertyId.ros_namespace v =
            (s, [Event.logError])) ∧
      (s.node = false →
        rosbasesink_set_property s PropertyId.ros_name v =
            ({ s with node_name := v }, []) ∧
          rosbasesink_set_property s PropertyId.ros_namespace v =
            ({ s with node_namespace := v }, [])) := by
  constructor <;> intro h <;> simp [rosbasesink_set_property, h]

/-- Witness for C7 on a disconnected and a connected sink. -/
theorem set_property_identity_guard_witness :
    (rosbasesink_set_property rosbasesink_init PropertyId.ros_name "gst_audio" =
        ({ rosbasesink_init with node_name := "gst_audio" }, []) ∧
      rosbasesink_set_property sinkReady PropertyId.ros_name "gst_audio" =
        (sinkReady, [Event.logError])) := by
  refine ⟨((set_property_identity_guard rosbasesink_init "gst_audio").2 rfl).1, ?_⟩
  exact ((set_property_identity_guard sinkReady "gst_audio").1 rfl).1

/-- C8: the Ready→Null close sequence releases in reverse order of
acquisition — the cached clock reference first, then the subclass close hook
(which releases the subclass endpoints), then the node, then the context —
so the hook runs strictly before the node is released and before the context
is shut down. -/
theorem close_releases_in_reverse_order (klass : RosBaseSinkClass) (env : Env)
    (s : RosBaseSink) (h : klass.has_close = true) :
    (rosbasesink_close klass env s).2.2 =
        [Event.clockReset, Event.closeHook env.close_hook_ok, Event.nodeReset,
          Event.contextShutdown] ∧
      (∃ i j k : Nat, i < j ∧ j < k ∧
        ((rosbasesink_close klass env s).2.2)[i]? =
            some (Event.closeHook env.close_hook_ok) ∧
          ((rosbasesink_close klass env s).2.2)[j]? = some Event.nodeReset ∧
          ((rosbasesink_close klass env s).2.2)[k]? =
            some Event.contextShutdown) := by
  refine ⟨by simp [rosbasesink_close, h], ⟨1, 2, 3, by norm_num, by norm_num, ?_, ?_, ?_⟩⟩ <;>
    simp [rosbasesink_close, h]

/-- Witness for C8 at a concrete class with a close hook. -/
theorem close_releases_in_reverse_order_witness :
    (rosbasesink_close klassFull envOk sinkReady).2.2 =
      [Event.clockReset, Event.closeHook true, Event.nodeReset,
        Event.contextShutdown] :=
  (close_releases_in_reverse_order klassFull envOk sinkReady rfl).1

/-- Auxiliary: clock samples in a concatenated trace. -/
theorem sampleCount_append (l1 l2 : List Event) :
    sampleCount (l1 ++ l2) = sampleCount l1 + sampleCount l2 := by
  simp [sampleCount]

/-- Auxiliary: a leading chained-up call records no clock sample. -/
theorem sampleCount_cons_parent (l : List Event) :
    sampleCount (Event.parentChangeState :: l) = sampleCount l := by
  simp [sampleCount, isSampleEvent]

/-- Auxiliary: opening records no clock sample. -/
theorem sampleCount_open (klass : RosBaseSinkClass) (env : Env)
    (s : RosBaseSink) :
    sampleCount (rosbasesink_open klass env s).2.2 = 0 := by
  cases h : klass.has_open <;>
    simp [rosbasesink_open, sampleCount, isSampleEvent, h]

/-- Auxiliary: closing records no clock sample. -/
theorem sampleCount_close (klass : RosBaseSinkClass) (env : Env)
    (s : RosBaseSink) :
    sampleCount (rosbasesink_close klass env s).2.2 = 0 := by
  cases h : klass.has_close <;>
    simp [rosbasesink_close, sampleCount, isSampleEvent, h]

/-- C4: the Paused→Playing state change records exactly one clock-offset
sample and stores its value; every other transition records no sample and
leaves the stored offset unchanged; and a Paused→Playing→Paused→Playing
cycle records exactly two samples, the stored offset ending at the second
sample's value. -/
theorem clock_offset_resampled_each_play (klass : RosBaseSinkClass)
    (env e1 e2 e3 : Env) (s : RosBaseSink) :
    (sampleCount (rosbasesink_change_state klass env s
          GstStateChange.paused_to_playing).2.2 = 1 ∧
        (rosbasesink_change_state klass env s
          GstStateChange.paused_to_playing).1.ros_clock_offset =
          env.sample_value) ∧
      (∀ t : GstStateChange, t ≠ GstStateChange.paused_to_playing →
        sampleCount (rosbasesink_change_state klass env s t).2.2 = 0 ∧
          (rosbasesink_change_state klass env s t).1.ros_clock_offset =
            s.ros_clock_offset) ∧
      (sampleCount (run_transitions klass s
            [(e1, GstStateChange.paused_to_playing),
              (e2, GstStateChange.playing_to_paused),
              (e3, GstStateChange.paused_to_playing)]).2 = 2 ∧
        (run_transitions klass s
            [(e1, GstStateChange.paused_to_playing),
              (e2, GstStateChange.playing_to_paused),
              (e3, GstStateChange.paused_to_playing)]).1.ros_clock_offset =
          e3.sample_value) := by
  refine ⟨⟨rfl, rfl⟩, ?_, rfl, rfl⟩
  intro t ht
  cases t
  case paused_to_playing => exact absurd rfl ht
  case null_to_ready =>
    constructor
    · simp only [rosbasesink_change_state]
      split
      · rw [sampleCount_append, sampleCount_open]
        rfl
      · exact sampleCount_open klass env s
    · simp only [rosbasesink_change_state]
      split <;> rfl
  case ready_to_null =>
    constructor
    · simp only [rosbasesink_change_state]
      rw [sampleCount_cons_parent, sampleCount_close]
    · rfl
  case ready_to_paused => exact ⟨rfl, rfl⟩
  case playing_to_paused => exact ⟨rfl, rfl⟩
  case paused_to_ready => exact ⟨rfl, rfl⟩

/-- Witness for C4: the `ready_to_paused` branch of the universally
quantified conjunct, discharged at a concrete transition. -/
theorem clock_offset_resampled_each_play_witness :
    sampleCount (rosbasesink_change_state klassFull envOk rosbasesink_init
        GstStateChange.paused_to_playing).2.2 = 1 ∧
      sampleCount (rosbasesink_change_state klassFull envOk rosbasesink_init
        GstStateChange.ready_to_paused).2.2 = 0 := by
  refine ⟨(clock_offset_resampled_each_play klassFull envOk envOk envOk envOk
      rosbasesink_init).1.1, ?_⟩
  exact ((clock_offset_resampled_each_play klassFull envOk envOk envOk envOk
      rosbasesink_init).2.1 GstStateChange.ready_to_paused (fun h => nomatch h)).1

/-- Auxiliary: the wrapped 64-bit sum computed by the render path agrees with
the mathematical sum whenever the operands are in their C ranges and the sum
lands in the non-negative `int64_t` range. -/
theorem msg_time_ns_exact (pts : Nat) (b o : Int)
    (_h1 : pts < 2 ^ 64)
    (_h2 : -(2 ^ 63) ≤ b) (_h3 : b < 2 ^ 63)
    (_h4 : -(2 ^ 63) ≤ o) (_h5 : o < 2 ^ 63)
    (h6 : 0 ≤ (pts : Int) + b + o) (h7 : (pts : Int) + b + o < 2 ^ 63) :
    msg_time_ns pts b o = (pts : Int) + b + o := by
  have hb0 : (0 : Int) ≤ b % 2 ^ 64 := Int.emod_nonneg b (by norm_num)
  have ho0 : (0 : Int) ≤ o % 2 ^ 64 := Int.emod_nonneg o (by norm_num)
  have hS : ((pts + toUnsigned64 b + toUnsigned64 o : Nat) : Int) =
      (pts : Int) + b % 2 ^ 64 + o % 2 ^ 64 := by
    unfold toUnsigned64
    rw [Nat.cast_add, Nat.cast_add, Int.toNat_of_nonneg hb0, Int.toNat_of_nonneg ho0]
  have h9 : (pts : Int) + b % 2 ^ 64 + o % 2 ^ 64 =
      ((pts : Int) + b + o) + 2 ^ 64 * (-(b / 2 ^ 64) - o / 2 ^ 64) := by
    rw [Int.emod_def, Int.emod_def]
    ring
  have hmod : (((pts + toUnsigned64 b + toUnsigned64 o) % 2 ^ 64 : Nat) : Int) =
      (pts : Int) + b + o := by
    calc (((pts + toUnsigned64 b + toUnsigned64 o) % 2 ^ 64 : Nat) : Int)
        = ((pts + toUnsigned64 b + toUnsigned64 o : Nat) : Int) % (2 ^ 64 : Int) := by
          push_cast
          ring
      _ = ((pts : Int) + b % 2 ^ 64 + o % 2 ^ 64) % (2 ^ 64 : Int) := by rw [hS]
      _ = (((pts : Int) + b + o) + 2 ^ 64 * (-(b / 2 ^ 64) - o / 2 ^ 64)) % (2 ^ 64 : Int) := by
          rw [h9]
      _ = ((pts : Int) + b + o) % (2 ^ 64 : Int) := by
          rw [Int.add_mul_emod_self_left]
      _ = (pts : Int) + b + o := Int.emod_eq_of_lt h6 (lt_trans h7 (by norm_num))
  have hlt : (pts + toUnsigned64 b + toUnsigned64 o) % 2 ^ 64 < 2 ^ 63 := by
    have h10 : (((pts + toUnsigned64 b + toUnsigned64 o) % 2 ^ 64 : Nat) : Int) <
        (2 : Int) ^ 63 := by
      rw [hmod]
      exact h7
    exact_mod_cast h10
  unfold msg_time_ns toSigned64
  rw [Nat.mod_mod_of_dvd _ dvd_rfl, if_pos hlt, hmod]

/-- C1: a buffer rendered while the connection is open (node and clock held)
and a subclass render hook is set is delegated to the hook with message
timestamp exactly `PTS + base_time + ros_clock_offset`, provided the operands
are in their 64-bit ranges and the sum is a representable non-negative
`int64_t` time. -/
theorem render_timestamp_exact (klass : RosBaseSinkClass) (s : RosBaseSink)
    (base_time : Int) (buf : GstBuffer) (f : GstBuffer → Int → GstFlowReturn)
    (_hnode : s.node = true) (hclock : s.clock = true)
    (hrender : klass.render = some f)
    (h1 : buf.pts < 2 ^ 64)
    (h2 : -(2 ^ 63) ≤ base_time) (h3 : base_time < 2 ^ 63)
    (h4 : -(2 ^ 63) ≤ s.ros_clock_offset) (h5 : s.ros_clock_offset < 2 ^ 63)
    (h6 : 0 ≤ (buf.pts : Int) + base_time + s.ros_clock_offset)
    (h7 : (buf.pts : Int) + base_time + s.ros_clock_offset < 2 ^ 63) :
    rosbasesink_render klass s base_time buf =
      Except.ok
        (RenderResult.delegated ((buf.pts : Int) + base_time + s.ros_clock_offset)
          (f buf ((buf.pts : Int) + base_time + s.ros_clock_offset)), []) := by
  simp [rosbasesink_render, hclock, hrender,
    msg_time_ns_exact buf.pts base_time s.ros_clock_offset h1 h2 h3 h4 h5 h6 h7]

/-- A subclass table whose render hook always reports `GST_FLOW_OK`. -/
def klassRender : RosBaseSinkClass :=
  { has_open := true
    has_close := true
    set_caps := none
    get_caps := none
    render := some (fun _ _ => GstFlowReturn.ok) }

/-- The open sink used to exercise the render path, with a concrete stored
clock offset. -/
def sinkPlaying : RosBaseSink :=
  { sinkReady with ros_clock_offset := 5 }

/-- Witness for C1: a buffer with PTS 3, base time 7 and offset 5 is
delegated with timestamp 15. -/
theorem render_timestamp_exact_witness :
    rosbasesink_render klassRender sinkPlaying 7 { pts := 3 } =
      Except.ok (RenderResult.delegated 15 GstFlowReturn.ok, []) := by
  have h := render_timestamp_exact klassRender sinkPlaying 7 { pts := 3 }
    (fun _ _ => GstFlowReturn.ok) rfl rfl rfl (by norm_num) (by norm_num)
    (by norm_num) (by norm_num [sinkPlaying]) (by norm_num [sinkPlaying])
    (by norm_num [sinkPlaying]) (by norm_num [sinkPlaying])
  simpa using h

/-- C5 failing input: the render path invoked while no connection is open
(fresh sink, null node and clock) dereferences the null `clock` shared
pointer while constructing the message time — before any node or hook
check — instead of dropping the buffer. -/
theorem render_crashes_without_connection :
    rosbasesink_render klassFull rosbasesink_init 0 { pts := 0 } =
      Except.error RenderError.nullClockDeref := rfl

/-- C3 counterexample: with a subclass open hook that reports failure, the
Null→Ready state change reports `GST_STATE_CHANGE_FAILURE` (so the state
stays Null) and yet the node and the context created during the attempt are
still held — the ExternalConnection is not absent, contrary to the claim. -/
theorem open_failure_leaves_connection_counterexample :
    (rosbasesink_change_state klassFull envFailOpen rosbasesink_init
        GstStateChange.null_to_ready).2.1 = GstStateChangeReturn.failure ∧
      (rosbasesink_change_state klassFull envFailOpen rosbasesink_init
        GstStateChange.null_to_ready).1.node = true ∧
      (rosbasesink_change_state klassFull envFailOpen rosbasesink_init
          GstStateChange.null_to_ready).1.ros_context =
        some { shut_down := false } ∧
      connection_open (rosbasesink_change_state klassFull envFailOpen
        rosbasesink_init GstStateChange.null_to_ready).1 = true :=
  ⟨rfl, rfl, rfl, rfl⟩

/-- C3 amended: when the subclass open hook reports failure, the Null→Ready
state change reports a hard failure and the committed state remains Null, but
the execution context and node constructed earlier in `rosbasesink_open`
remain held (nothing is torn down by the failed open). -/
theorem open_failure_reports_failure_but_keeps_resources
    (klass : RosBaseSinkClass) (env : Env) (s : RosBaseSink)
    (hopen : klass.has_open = true) (hfail : env.open_hook_ok = false) :
    (rosbasesink_change_state klass env s GstStateChange.null_to_ready).2.1 =
        GstStateChangeReturn.failure ∧
      commit_state GstState.null GstStateChange.null_to_ready
        (rosbasesink_change_state klass env s
          GstStateChange.null_to_ready).2.1 = GstState.null ∧
      (rosbasesink_change_state klass env s
          GstStateChange.null_to_ready).1.node = true ∧
      (rosbasesink_change_state klass env s
          GstStateChange.null_to_ready).1.ros_context =
        some { shut_down := false } := by
  simp [rosbasesink_change_state, rosbasesink_open, commit_state, hopen, hfail]

/-- Witness for the amended C3 at a concrete failing environment. -/
theorem open_failure_reports_failure_but_keeps_resources_witness :
    (rosbasesink_change_state klassFull envFailOpen rosbasesink_init
        GstStateChange.null_to_ready).2.1 = GstStateChangeReturn.failure ∧
      commit_state GstState.null GstStateChange.null_to_ready
        (rosbasesink_change_state klassFull envFailOpen rosbasesink_init
          GstStateChange.null_to_ready).2.1 = GstState.null ∧
      (rosbasesink_change_state klassFull envFailOpen
          rosbasesink_init GstStateChange.null_to_ready).1.node = true ∧
      (rosbasesink_change_state klassFull envFailOpen
          rosbasesink_init GstStateChange.null_to_ready).1.ros_context =
        some { shut_down := false } :=
  open_failure_reports_failure_but_keeps_resources klassFull envFailOpen
    rosbasesink_init rfl rfl

/-- Auxiliary: a property set leaves the connection status unchanged. -/
theorem connection_open_set_property (s : RosBaseSink) (p : PropertyId)
    (v : String) :
    connection_open (rosbasesink_set_property s p v).1 = connection_open s := by
  cases p <;> simp only [rosbasesink_set_property] <;>
    split <;> simp [connection_open, context_live]

/-- C2: along every run of the four-state lattice starting disconnected at
Null (lattice transitions whose state change commits, with property sets
interleaved anywhere), the ExternalConnection — node held and context live —
exists at a point exactly when the state at that point is Ready, Paused or
Playing. -/
theorem connection_invariant (klass : RosBaseSinkClass) (st : GstState)
    (s : RosBaseSink) (h : Reachable klass st s) :
    (connection_open s = true ↔
      (st = GstState.ready ∨ st = GstState.paused ∨ st = GstState.playing)) := by
  induction h with
  | init s hn hc =>
      simp [connection_open, context_live, hn, hc]
  | step env t st s h hsrc hret ih =>
      cases t with
      | null_to_ready =>
          constructor
          · intro _
            simp [transition_target]
          · intro _
            simp only [rosbasesink_change_state] at hret ⊢
            split <;>
              simp [rosbasesink_open, connection_open, context_live]
      | ready_to_paused =>
          simp only [transition_source] at hsrc
          simp only [rosbasesink_change_state, transition_target]
          rw [← hsrc] at ih
          simp at ih
          simp [ih]
      | paused_to_playing =>
          simp only [transition_source] at hsrc
          simp only [rosbasesink_change_state, transition_target]
          rw [← hsrc] at ih
          simp at ih
          simp [connection_open, context_live] at ih ⊢
          exact ih
      | playing_to_paused =>
          simp only [transition_source] at hsrc
          simp only [rosbasesink_change_state, transition_target]
          rw [← hsrc] at ih
          simp at ih
          simp [ih]
      | paused_to_ready =>
          simp only [transition_source] at hsrc
          simp only [rosbasesink_change_state, transition_target]
          rw [← hsrc] at ih
          simp at ih
          simp [ih]
      | ready_to_null =>
          simp only [rosbasesink_change_state, transition_target]
          simp [rosbasesink_close, connection_open, context_live]
  | setprop p v st s h ih =>
      rw [connection_open_set_property]
      exact ih

/-- Witness for C2 on a concrete two-point run: a fresh instance at Null, and
the instance after a committed Null→Ready transition. -/
theorem connection_invariant_witness :
    ((connection_open rosbasesink_init = true ↔
        (GstState.null = GstState.ready ∨ GstState.null = GstState.paused ∨
          GstState.null = GstState.playing)) ∧
      (connection_open sinkReady = true ↔
        (GstState.ready = GstState.ready ∨ GstState.ready = GstState.paused ∨
          GstState.ready = GstState.playing))) := by
  constructor
  · exact connection_invariant klassFull GstState.null rosbasesink_init
      (Reachable.init rosbasesink_init rfl rfl)
  · exact connection_invariant klassFull GstState.ready sinkReady
      (Reachable.step envOk GstStateChange.null_to_ready GstState.null
        rosbasesink_init (Reachable.init rosbasesink_init rfl rfl) rfl
        (fun h => nomatch h))

end RosGstBridge
